import Mathlib

/-!
Verification of the Raffle lottery state machine.

The repository ships only the deploy scripts and the unit tests of the
`Raffle` contract; the contract body itself is absent, so the core is
modelled here from the specification (spec.md §3–§7): a round state
machine with entry admission, a readiness predicate, a two-phase
randomness request/fulfillment protocol, and winner selection with
payout.  Participants, callers and request identifiers are represented
by natural numbers; amounts and timestamps by natural numbers; a failed
operation returns an `Except` error and, per the host execution model
(spec.md §5, §7: every failure aborts the operation with no partial
state change), leaves the pre-call state in force.
-/

namespace Raffle

/-- Modelled from the spec: the missing contract's round-state
enumeration {OPEN, DRAWING} (spec.md §3). -/
inductive RoundState where
  | OPEN
  | DRAWING
deriving DecidableEq, Repr

/-- Modelled from the spec: the missing contract's immutable
construction parameters — entrance fee and minimum interval
(spec.md §3). Oracle routing parameters are opaque to the core and
omitted. -/
structure Config where
  entranceFee : Nat
  interval : Nat
deriving DecidableEq, Repr

/-- Modelled from the spec: the missing contract's mutable storage
(spec.md §3, §9): round state, participant list, pooled balance, last
resolution timestamp, outstanding randomness request, recent winner.
`nextRequestId` is the oracle's fresh-identifier counter and
`issuedIds` the history of identifiers it has handed out, kept so that
freshness of a new request identifier is statable. -/
structure State where
  roundState : RoundState
  players : List Nat
  pooledBalance : Nat
  lastTimestamp : Nat
  outstandingRequestId : Option Nat
  recentWinner : Option Nat
  nextRequestId : Nat
  issuedIds : List Nat
deriving DecidableEq, Repr

/-- Modelled from the spec: the error kinds of spec.md §7, with
`UpkeepNotReady` carrying the diagnostic snapshot values. -/
inductive Err where
  | InsufficientPayment
  | RoundNotOpen
  | UpkeepNotReady (balance : Nat) (numPlayers : Nat) (state : RoundState)
  | UnknownRequest
  | PayoutFailed
deriving DecidableEq, Repr

/-- Modelled from the spec: the observable notifications (spec.md §6):
entry-recorded, draw-requested, winner-picked. -/
inductive Event where
  | RaffleEnter (payer : Nat)
  | RequestedRaffleWinner (requestId : Nat)
  | WinnerPicked (winner : Nat)
deriving DecidableEq, Repr

/-- Modelled from the spec: the state at construction (spec.md §3, §4.4):
round OPEN, empty ledger, zero pool, `LastResolutionTimestamp` seeded
with the deployment time, no outstanding request, no winner yet; the
oracle's identifier counter starts at 1 (the tests observe the first
request identifier to be positive). -/
def initialState (deployTime : Nat) : State :=
  { roundState := RoundState.OPEN
    players := []
    pooledBalance := 0
    lastTimestamp := deployTime
    outstandingRequestId := none
    recentWinner := none
    nextRequestId := 1
    issuedIds := [] }

/-- Modelled from the spec: `EntryLedger.enter` (spec.md §4.1).  Checks
are in the spec's stated order: insufficient payment first, then the
round state; on success the payer is appended and the pool increased by
the paid amount, with an entry-recorded notification. -/
def enterRaffle (cfg : Config) (s : State) (payer amount : Nat) :
    Except Err (State × Event) :=
  if amount < cfg.entranceFee then
    Except.error Err.InsufficientPayment
  else if s.roundState = RoundState.OPEN then
    Except.ok
      ({ s with
          players := s.players ++ [payer]
          pooledBalance := s.pooledBalance + amount },
        Event.RaffleEnter payer)
  else
    Except.error Err.RoundNotOpen

/-- Modelled from the spec: `UpkeepEvaluator.isReady` (spec.md §4.2), a
read-only predicate: time passed AND open AND has balance AND has
players. -/
def isReady (cfg : Config) (s : State) (now : Nat) : Bool :=
  let timePassed := now - s.lastTimestamp > cfg.interval
  let isOpen := s.roundState = RoundState.OPEN
  let hasBalance := s.pooledBalance > 0
  let hasPlayers := s.players.length > 0
  timePassed && isOpen && hasBalance && hasPlayers

/-- Modelled from the spec: `RandomnessRequester.requestDraw`
(spec.md §4.3), the contract's `performUpkeep`.  Re-evaluates `isReady`;
if false, fails with `UpkeepNotReady` carrying the diagnostic snapshot;
on success flips the round to DRAWING, obtains a fresh identifier from
the oracle's counter and records it as outstanding, emitting a
draw-requested notification.  The caller's identity is taken but never
consulted: the operation has no access control. -/
def performUpkeep (cfg : Config) (s : State) (_caller : Nat) (now : Nat) :
    Except Err (State × Event) :=
  if isReady cfg s now then
    Except.ok
      ({ s with
          roundState := RoundState.DRAWING
          outstandingRequestId := some s.nextRequestId
          nextRequestId := s.nextRequestId + 1
          issuedIds := s.nextRequestId :: s.issuedIds },
        Event.RequestedRaffleWinner s.nextRequestId)
  else
    Except.error
      (Err.UpkeepNotReady s.pooledBalance s.players.length s.roundState)

/-- Modelled from the spec: `WinnerSelector.resolve` (spec.md §4.4), the
contract's `fulfillRandomWords`.  A request identifier that does not
match the outstanding one fails with `UnknownRequest`.  Otherwise the
winner is `players[randomValue mod |players|]`; bookkeeping is applied
(winner recorded, ledger and pool cleared, timestamp set to `now`,
round reopened, outstanding request cleared) and the previously-recorded
pool amount is transferred to the winner.  The external transfer's
success is a parameter `transferOk`; when it is false the whole call
fails with `PayoutFailed` and, by the all-or-nothing call discipline,
no effect survives.  Returns the new state, the winner-picked
notification and the transferred amount. -/
def fulfillRandomWords (s : State) (requestId randomValue now : Nat)
    (transferOk : Bool) : Except Err (State × Event × Nat) :=
  if s.outstandingRequestId = some requestId then
    let winner := s.players.getD (randomValue % s.players.length) 0
    if transferOk then
      Except.ok
        ({ s with
            recentWinner := some winner
            players := []
            pooledBalance := 0
            lastTimestamp := now
            roundState := RoundState.OPEN
            outstandingRequestId := none },
          Event.WinnerPicked winner, s.pooledBalance)
    else
      Except.error Err.PayoutFailed
  else
    Except.error Err.UnknownRequest

/-- Modelled from the spec: the numeric encoding of the round state
observed by the state query accessor (the tests read `"0"` for OPEN and
`"1"` for DRAWING). -/
def RoundState.toCode : RoundState → Nat
  | RoundState.OPEN => 0
  | RoundState.DRAWING => 1

/-- Modelled from the spec: the read-only state query accessor
(spec.md §6). -/
def getRaffleState (s : State) : Nat :=
  s.roundState.toCode

/-- The state actually in force after an `enterRaffle` call: on failure
the call aborts with no partial state change (spec.md §7), so the
pre-call state persists. -/
def applyEnter (cfg : Config) (s : State) (payer amount : Nat) : State :=
  match enterRaffle cfg s payer amount with
  | Except.ok (s2, _) => s2
  | Except.error _ => s

/-- The state actually in force after a `fulfillRandomWords` call: on
failure the call aborts with no partial state change (spec.md §7), so
the pre-call state persists. -/
def applyFulfill (s : State) (requestId randomValue now : Nat)
    (transferOk : Bool) : State :=
  match fulfillRandomWords s requestId randomValue now transferOk with
  | Except.ok (s2, _, _) => s2
  | Except.error _ => s

/-- Modelled from the spec: a sequence of `enter` calls threaded through
the state, each pair being (payer, amount); events are discarded. -/
def enterAll (cfg : Config) (s : State) :
    List (Nat × Nat) → Except Err State
  | [] => Except.ok s
  | (p, a) :: rest =>
    match enterRaffle cfg s p a with
    | Except.ok (s2, _) => enterAll cfg s2 rest
    | Except.error e => Except.error e

/-- A fixed configuration used by concrete witnesses: fee 5, interval 10. -/
def cfg0 : Config := { entranceFee := 5, interval := 10 }

/-- A concrete OPEN state with four players and pool 20, ready for a
draw at time 11 under `cfg0`. -/
def sR : State :=
  { roundState := RoundState.OPEN
    players := [2, 3, 4, 5]
    pooledBalance := 20
    lastTimestamp := 0
    outstandingRequestId := none
    recentWinner := none
    nextRequestId := 1
    issuedIds := [] }

/-- The state reached from `sR` by a successful `performUpkeep` at time
11 under `cfg0`: DRAWING, outstanding request 1. -/
def sB : State :=
  { roundState := RoundState.DRAWING
    players := [2, 3, 4, 5]
    pooledBalance := 20
    lastTimestamp := 0
    outstandingRequestId := some 1
    recentWinner := none
    nextRequestId := 2
    issuedIds := [1] }

/-- A concrete DRAWING state with outstanding request 1. -/
def sD : State :=
  { roundState := RoundState.DRAWING
    players := [2, 3]
    pooledBalance := 10
    lastTimestamp := 0
    outstandingRequestId := some 1
    recentWinner := none
    nextRequestId := 2
    issuedIds := [1] }

theorem isReady_true_iff (cfg : Config) (s : State) (now : Nat) :
    isReady cfg s now = true ↔
      now - s.lastTimestamp > cfg.interval ∧
      s.roundState = RoundState.OPEN ∧
      s.pooledBalance > 0 ∧
      s.players ≠ [] := by
  simp [isReady, List.length_pos, and_assoc]

theorem enterRaffle_ok_shape (cfg : Config) (s : State) (p a : Nat)
    (s2 : State) (ev : Event)
    (h : enterRaffle cfg s p a = Except.ok (s2, ev)) :
    s2 = { s with
            players := s.players ++ [p]
            pooledBalance := s.pooledBalance + a } ∧
    ev = Event.RaffleEnter p := by
  unfold enterRaffle at h
  split at h
  · cases h
  · split at h
    · simp only [Except.ok.injEq, Prod.mk.injEq] at h
      exact ⟨h.1.symm, h.2.symm⟩
    · cases h

theorem performUpkeep_ok_shape (cfg : Config) (s : State) (c now : Nat)
    (s2 : State) (ev : Event)
    (h : performUpkeep cfg s c now = Except.ok (s2, ev)) :
    isReady cfg s now = true ∧
    s2 = { s with
            roundState := RoundState.DRAWING
            outstandingRequestId := some s.nextRequestId
            nextRequestId := s.nextRequestId + 1
            issuedIds := s.nextRequestId :: s.issuedIds } ∧
    ev = Event.RequestedRaffleWinner s.nextRequestId := by
  unfold performUpkeep at h
  split at h
  case isTrue hr =>
    simp only [Except.ok.injEq, Prod.mk.injEq] at h
    exact ⟨hr, h.1.symm, h.2.symm⟩
  case isFalse => cases h

theorem fulfill_ok_shape (s : State) (rid rv now : Nat) (tok : Bool)
    (s3 : State) (ev : Event) (amt : Nat)
    (h : fulfillRandomWords s rid rv now tok = Except.ok (s3, ev, amt)) :
    s.outstandingRequestId = some rid ∧ tok = true ∧
    s3 = { s with
            recentWinner :=
              some (s.players.getD (rv % s.players.length) 0)
            players := []
            pooledBalance := 0
            lastTimestamp := now
            roundState := RoundState.OPEN
            outstandingRequestId := none } ∧
    ev = Event.WinnerPicked (s.players.getD (rv % s.players.length) 0) ∧
    amt = s.pooledBalance := by
  unfold fulfillRandomWords at h
  split at h
  case isTrue hm =>
    split at h
    case isTrue ht =>
      simp only [Except.ok.injEq, Prod.mk.injEq] at h
      exact ⟨hm, ht, h.1.symm, h.2.1.symm, h.2.2.symm⟩
    case isFalse => cases h
  case isFalse => cases h

/-- C5: `isReady` is a function of the state alone — it returns a bare
boolean and can mutate nothing however often it is applied — and it
reports true iff all four conditions hold simultaneously: elapsed time
strictly beyond the interval, round OPEN, positive pooled balance,
non-empty participant list; it reports false exactly when any one of
them fails. -/
theorem isReady_spec (cfg : Config) (s : State) (now : Nat) :
    (isReady cfg s now = true ↔
      now - s.lastTimestamp > cfg.interval ∧
      s.roundState = RoundState.OPEN ∧
      s.pooledBalance > 0 ∧
      s.players ≠ []) ∧
    (isReady cfg s now = false ↔
      ¬(now - s.lastTimestamp > cfg.interval ∧
        s.roundState = RoundState.OPEN ∧
        s.pooledBalance > 0 ∧
        s.players ≠ [])) := by
  constructor
  · exact isReady_true_iff cfg s now
  · rw [← isReady_true_iff cfg s now]
    cases h : isReady cfg s now <;> simp [h]

/-- C9: the publicly observable encoding of the round state is numeric:
the accessor returns 0 exactly when the round is OPEN — in particular at
construction, for any deployment time — and 1 exactly when it is
DRAWING, for every state. -/
theorem getRaffleState_spec :
    (∀ t : Nat, getRaffleState (initialState t) = 0) ∧
    (∀ s : State,
      (getRaffleState s = 0 ↔ s.roundState = RoundState.OPEN) ∧
      (getRaffleState s = 1 ↔ s.roundState = RoundState.DRAWING)) := by
  constructor
  · intro t
    rfl
  · intro s
    cases h : s.roundState <;>
      simp [getRaffleState, RoundState.toCode, h]

/-- C10: `performUpkeep` has no caller restriction: two invocations by
any two accounts over the same configuration, state and time are the
same computation, so they produce the same outcome — the caller's
identity plays no role. -/
theorem performUpkeep_caller_independent (cfg : Config) (s : State)
    (now c1 c2 : Nat) :
    performUpkeep cfg s c1 now = performUpkeep cfg s c2 now := rfl

/-- C6 counterexample: in the DRAWING state `sD`, an `enterRaffle` call
paying 0 (below the fee 5 of `cfg0`) fails with `InsufficientPayment`,
not with `RoundNotOpen` — the payment check comes first (spec.md §4.1)
— so the claim that every payment amount while DRAWING fails with
`RoundNotOpen` is false. -/
theorem enter_drawing_lowpay_counterexample :
    sD.roundState = RoundState.DRAWING ∧
    0 < cfg0.entranceFee ∧
    enterRaffle cfg0 sD 7 0 = Except.error Err.InsufficientPayment ∧
    Err.InsufficientPayment ≠ Err.RoundNotOpen := by
  refine ⟨rfl, by decide, rfl, by decide⟩

/-- C6 (amended): a payment below the entrance fee fails with
`InsufficientPayment` whatever the round state; a payment at or above
the fee while the round is DRAWING fails with `RoundNotOpen`; and every
failing `enterRaffle` call leaves the state — in particular the
participant list and the pooled balance — unchanged. -/
theorem enter_failure_spec (cfg : Config) (s : State) (payer amount : Nat) :
    (amount < cfg.entranceFee →
      enterRaffle cfg s payer amount = Except.error Err.InsufficientPayment) ∧
    (cfg.entranceFee ≤ amount → s.roundState = RoundState.DRAWING →
      enterRaffle cfg s payer amount = Except.error Err.RoundNotOpen) ∧
    (∀ e : Err, enterRaffle cfg s payer amount = Except.error e →
      applyEnter cfg s payer amount = s ∧
      (applyEnter cfg s payer amount).players = s.players ∧
      (applyEnter cfg s payer amount).pooledBalance = s.pooledBalance) := by
  refine ⟨?_, ?_, ?_⟩
  · intro hlow
    simp [enterRaffle, hlow]
  · intro hamt hdraw
    have hlt : ¬ amount < cfg.entranceFee := not_lt.mpr hamt
    simp [enterRaffle, hlt, hdraw]
  · intro e he
    have : applyEnter cfg s payer amount = s := by
      unfold applyEnter
      rw [he]
    exact ⟨this, by rw [this], by rw [this]⟩

/-- C6 witness: concrete instances of the amended claim — paying 0 in
the DRAWING state `sD` fails with `InsufficientPayment`, paying 6 ≥ 5
there fails with `RoundNotOpen`, and in both cases the in-force state is
unchanged. -/
theorem enter_failure_spec_witness :
    enterRaffle cfg0 sD 7 0 = Except.error Err.InsufficientPayment ∧
    enterRaffle cfg0 sD 7 6 = Except.error Err.RoundNotOpen ∧
    applyEnter cfg0 sD 7 0 = sD ∧
    applyEnter cfg0 sD 7 6 = sD := by
  refine ⟨(enter_failure_spec cfg0 sD 7 0).1 (by decide),
    (enter_failure_spec cfg0 sD 7 6).2.1 (by decide) rfl,
    ((enter_failure_spec cfg0 sD 7 0).2.2 Err.InsufficientPayment
      ((enter_failure_spec cfg0 sD 7 0).1 (by decide))).1,
    ((enter_failure_spec cfg0 sD 7 6).2.2 Err.RoundNotOpen
      ((enter_failure_spec cfg0 sD 7 6).2.1 (by decide) rfl)).1⟩

/-- C7: a payment at or above the entrance fee while the round is OPEN
succeeds: the payer is appended to the end of the participant list, the
pooled balance grows by exactly the paid amount, the entry-recorded
notification carries the payer's identity, and the payer's number of
entries grows by one even when they had entered before. -/
theorem enter_success_spec (cfg : Config) (s : State) (payer amount : Nat)
    (hamt : cfg.entranceFee ≤ amount)
    (hopen : s.roundState = RoundState.OPEN) :
    ∃ s2 : State,
      enterRaffle cfg s payer amount =
        Except.ok (s2, Event.RaffleEnter payer) ∧
      s2.players = s.players ++ [payer] ∧
      s2.pooledBalance = s.pooledBalance + amount ∧
      s2.players.count payer = s.players.count payer + 1 := by
  have hlt : ¬ amount < cfg.entranceFee := not_lt.mpr hamt
  refine ⟨{ s with
      players := s.players ++ [payer]
      pooledBalance := s.pooledBalance + amount }, ?_, rfl, rfl, ?_⟩
  · simp [enterRaffle, hlt, hopen]
  · simp [List.count_append]

/-- C7 witness: player 3 of `sR`, who has already entered once, enters
again with payment 6 ≥ 5; the list gains a second entry for 3 and the
pool grows from 20 to 26. -/
theorem enter_success_spec_witness :
    ∃ s2 : State,
      enterRaffle cfg0 sR 3 6 = Except.ok (s2, Event.RaffleEnter 3) ∧
      s2.players = sR.players ++ [3] ∧
      s2.pooledBalance = sR.pooledBalance + 6 ∧
      s2.players.count 3 = sR.players.count 3 + 1 :=
  enter_success_spec cfg0 sR 3 6 (by decide) rfl

/-- C2: `performUpkeep` fails with `UpkeepNotReady` — carrying the
current balance, player count and round state as diagnostics — exactly
when `isReady` reports false on the same snapshot; when it succeeds the
round is DRAWING and the recorded request identifier is distinct from
every previously issued one (the hypothesis is the oracle-counter
invariant, which the success case re-establishes). -/
theorem performUpkeep_spec (cfg : Config) (s : State) (c now : Nat)
    (hfresh : ∀ i ∈ s.issuedIds, i < s.nextRequestId) :
    (performUpkeep cfg s c now =
        Except.error
          (Err.UpkeepNotReady s.pooledBalance s.players.length s.roundState)
      ↔ isReady cfg s now = false) ∧
    (∀ (s2 : State) (ev : Event),
      performUpkeep cfg s c now = Except.ok (s2, ev) →
      s2.roundState = RoundState.DRAWING ∧
      s2.outstandingRequestId = some s.nextRequestId ∧
      s.nextRequestId ∉ s.issuedIds ∧
      s2.issuedIds = s.nextRequestId :: s.issuedIds ∧
      (∀ i ∈ s2.issuedIds, i < s2.nextRequestId) ∧
      ev = Event.RequestedRaffleWinner s.nextRequestId) := by
  constructor
  · cases h : isReady cfg s now with
    | false => simp [performUpkeep, h]
    | true => simp [performUpkeep, h]
  · intro s2 ev hok
    obtain ⟨hready, hs2, hev⟩ := performUpkeep_ok_shape cfg s c now s2 ev hok
    subst hs2
    refine ⟨rfl, rfl, ?_, rfl, ?_, hev⟩
    · intro hmem
      exact absurd (hfresh _ hmem) (lt_irrefl _)
    · intro i hi
      have hi2 : i ∈ s.nextRequestId :: s.issuedIds := hi
      show i < s.nextRequestId + 1
      rcases List.mem_cons.mp hi2 with hEq | hmem
      · exact hEq ▸ Nat.lt_succ_self _
      · exact Nat.lt_succ_of_lt (hfresh _ hmem)

/-- C2 witness: under `cfg0` at time 11 the concrete state `sR` is
ready, `performUpkeep` succeeds, and the recorded identifier 1 was never
issued before. -/
theorem performUpkeep_spec_witness :
    (performUpkeep cfg0 sR 9 11 =
        Except.error
          (Err.UpkeepNotReady sR.pooledBalance sR.players.length sR.roundState)
      ↔ isReady cfg0 sR 11 = false) ∧
    (∀ (s2 : State) (ev : Event),
      performUpkeep cfg0 sR 9 11 = Except.ok (s2, ev) →
      s2.roundState = RoundState.DRAWING ∧
      s2.outstandingRequestId = some sR.nextRequestId ∧
      sR.nextRequestId ∉ sR.issuedIds ∧
      s2.issuedIds = sR.nextRequestId :: sR.issuedIds ∧
      (∀ i ∈ s2.issuedIds, i < s2.nextRequestId) ∧
      ev = Event.RequestedRaffleWinner sR.nextRequestId) :=
  performUpkeep_spec cfg0 sR 9 11 (by decide)

/-- C3: a `fulfillRandomWords` call whose request identifier does not
match the outstanding one — a stale or duplicate identifier, or any
identifier when none is outstanding — fails with `UnknownRequest`, and
the state in force afterwards is exactly the pre-call state. -/
theorem fulfill_unknown_spec (s : State) (rid rv now : Nat) (tok : Bool)
    (h : s.outstandingRequestId ≠ some rid) :
    fulfillRandomWords s rid rv now tok = Except.error Err.UnknownRequest ∧
    applyFulfill s rid rv now tok = s := by
  have he : fulfillRandomWords s rid rv now tok =
      Except.error Err.UnknownRequest := by
    simp [fulfillRandomWords, h]
  refine ⟨he, ?_⟩
  unfold applyFulfill
  rw [he]

/-- C3 witness: in `sD` (outstanding request 1) a call with stale
identifier 0 is rejected; in `sR` (no outstanding request) a call with
identifier 1 is rejected; both leave the state unchanged. -/
theorem fulfill_unknown_spec_witness :
    (fulfillRandomWords sD 0 42 5 true = Except.error Err.UnknownRequest ∧
      applyFulfill sD 0 42 5 true = sD) ∧
    (fulfillRandomWords sR 1 42 5 true = Except.error Err.UnknownRequest ∧
      applyFulfill sR 1 42 5 true = sR) :=
  ⟨fulfill_unknown_spec sD 0 42 5 true (by decide),
    fulfill_unknown_spec sR 1 42 5 true (by decide)⟩

/-- C4: when the transfer of the pool to the winner fails during a
`fulfillRandomWords` call with the matching request identifier, the
whole resolution fails with `PayoutFailed` and the state in force
afterwards is exactly the pre-call state: the round is still DRAWING
with the same outstanding request identifier. -/
theorem fulfill_payout_failed_spec (s : State) (rid rv now : Nat)
    (hmatch : s.outstandingRequestId = some rid)
    (hdraw : s.roundState = RoundState.DRAWING) :
    fulfillRandomWords s rid rv now false = Except.error Err.PayoutFailed ∧
    applyFulfill s rid rv now false = s ∧
    (applyFulfill s rid rv now false).roundState = RoundState.DRAWING ∧
    (applyFulfill s rid rv now false).outstandingRequestId = some rid := by
  have he : fulfillRandomWords s rid rv now false =
      Except.error Err.PayoutFailed := by
    simp [fulfillRandomWords, hmatch]
  have hs : applyFulfill s rid rv now false = s := by
    unfold applyFulfill
    rw [he]
  exact ⟨he, hs, by rw [hs]; exact hdraw, by rw [hs]; exact hmatch⟩

/-- C4 witness: in the DRAWING state `sD` with outstanding request 1, a
matching call whose transfer fails is rejected with `PayoutFailed` and
the state in force is still `sD`. -/
theorem fulfill_payout_failed_spec_witness :
    fulfillRandomWords sD 1 42 5 false = Except.error Err.PayoutFailed ∧
    applyFulfill sD 1 42 5 false = sD ∧
    (applyFulfill sD 1 42 5 false).roundState = RoundState.DRAWING ∧
    (applyFulfill sD 1 42 5 false).outstandingRequestId = some 1 :=
  fulfill_payout_failed_spec sD 1 42 5 rfl rfl

/-- C1: after a successful `performUpkeep` from state `s` (which flips
the round to DRAWING, records the fresh request identifier and leaves
the participant list of length N untouched), a `fulfillRandomWords`
call with that identifier and a succeeding transfer selects the winner
`s.players[randomValue mod N]`, and afterwards the participant list is
empty, the pooled balance is 0, the round is OPEN, the last resolution
timestamp has strictly advanced, and the outstanding request is
cleared. -/
theorem resolve_winner_spec (cfg : Config) (s s2 : State)
    (c now rv now2 : Nat) (ev1 : Event)
    (hup : performUpkeep cfg s c now = Except.ok (s2, ev1))
    (hnow2 : s2.lastTimestamp < now2) :
    ∃ (s3 : State) (amt : Nat),
      fulfillRandomWords s2 s.nextRequestId rv now2 true =
        Except.ok (s3,
          Event.WinnerPicked (s.players.getD (rv % s.players.length) 0),
          amt) ∧
      s3.recentWinner = s.players[rv % s.players.length]? ∧
      s3.players = [] ∧
      s3.pooledBalance = 0 ∧
      s3.roundState = RoundState.OPEN ∧
      s2.lastTimestamp < s3.lastTimestamp ∧
      s3.outstandingRequestId = none := by
  obtain ⟨hready, hs2, hev⟩ := performUpkeep_ok_shape cfg s c now s2 ev1 hup
  have hne : s.players ≠ [] := ((isReady_true_iff cfg s now).1 hready).2.2.2
  have hlen : 0 < s.players.length := List.length_pos.mpr hne
  have hidx : rv % s.players.length < s.players.length := Nat.mod_lt _ hlen
  subst hs2
  refine ⟨{ roundState := RoundState.OPEN
            players := []
            pooledBalance := 0
            lastTimestamp := now2
            outstandingRequestId := none
            recentWinner := some (s.players.getD (rv % s.players.length) 0)
            nextRequestId := s.nextRequestId + 1
            issuedIds := s.nextRequestId :: s.issuedIds },
    s.pooledBalance, ?_, ?_, rfl, rfl, rfl, hnow2, rfl⟩
  · simp [fulfillRandomWords]
  · show some (s.players.getD (rv % s.players.length) 0) =
      s.players[rv % s.players.length]?
    rw [List.getElem?_eq_getElem hidx, List.getD_eq_getElem s.players 0 hidx]

/-- C1 witness: from the ready state `sR` (players `[2,3,4,5]`),
`performUpkeep` at time 11 records request 1; resolving it with random
value 7 picks index 7 mod 4 = 3, i.e. player 5, and resets the round. -/
theorem resolve_winner_spec_witness :
    ∃ (s3 : State) (amt : Nat),
      fulfillRandomWords sB sR.nextRequestId 7 20 true =
        Except.ok (s3,
          Event.WinnerPicked (sR.players.getD (7 % sR.players.length) 0),
          amt) ∧
      s3.recentWinner = sR.players[7 % sR.players.length]? ∧
      s3.players = [] ∧
      s3.pooledBalance = 0 ∧
      s3.roundState = RoundState.OPEN ∧
      sB.lastTimestamp < s3.lastTimestamp ∧
      s3.outstandingRequestId = none :=
  resolve_winner_spec cfg0 sR sB 9 11 7 20
    (Event.RequestedRaffleWinner sR.nextRequestId) rfl (by decide)

theorem enterAll_pooledBalance (cfg : Config) :
    ∀ (entries : List (Nat × Nat)) (s s1 : State),
      enterAll cfg s entries = Except.ok s1 →
      s1.pooledBalance = s.pooledBalance + (entries.map Prod.snd).sum := by
  intro entries
  induction entries with
  | nil =>
    intro s s1 h
    simp only [enterAll, Except.ok.injEq] at h
    subst h
    simp
  | cons pa rest ih =>
    intro s s1 h
    obtain ⟨p, a⟩ := pa
    cases henter : enterRaffle cfg s p a with
    | error err =>
      unfold enterAll at h
      simp only [henter] at h
      exact Except.noConfusion h
    | ok pr =>
      obtain ⟨s2, ev⟩ := pr
      unfold enterAll at h
      simp only [henter] at h
      have hb := (enterRaffle_ok_shape cfg s p a s2 ev henter).1
      have hrest := ih s2 s1 h
      rw [hrest, hb]
      show s.pooledBalance + a + (rest.map Prod.snd).sum = _
      simp [Nat.add_assoc]

/-- C8: starting from a state whose pool is zero (as after any
resolution), any sequence of successful entries followed by a
successful `performUpkeep` and a successful `fulfillRandomWords` leaves
the pooled balance at zero and transfers to the winner exactly the sum
of all payments entered in between. -/
theorem round_trip_spec (cfg : Config) (s s1 s2 s3 : State)
    (entries : List (Nat × Nat)) (c now rid rv now2 : Nat)
    (ev1 ev2 : Event) (amt : Nat)
    (hbal : s.pooledBalance = 0)
    (hAll : enterAll cfg s entries = Except.ok s1)
    (hup : performUpkeep cfg s1 c now = Except.ok (s2, ev1))
    (hful : fulfillRandomWords s2 rid rv now2 true =
      Except.ok (s3, ev2, amt)) :
    s3.pooledBalance = 0 ∧ amt = (entries.map Prod.snd).sum := by
  have h1 := enterAll_pooledBalance cfg entries s s1 hAll
  have h2 := (performUpkeep_ok_shape cfg s1 c now s2 ev1 hup).2.1
  have h3 := fulfill_ok_shape s2 rid rv now2 true s3 ev2 amt hful
  constructor
  · rw [h3.2.2.1]
  · rw [h3.2.2.2.2, h2]
    show s1.pooledBalance = (entries.map Prod.snd).sum
    rw [h1, hbal]
    exact Nat.zero_add _

/-- The state after players 2, 3, 4 enter with payments 5, 5, 7 from a
fresh deployment at time 0. -/
def s1c : State :=
  { roundState := RoundState.OPEN
    players := [2, 3, 4]
    pooledBalance := 17
    lastTimestamp := 0
    outstandingRequestId := none
    recentWinner := none
    nextRequestId := 1
    issuedIds := [] }

/-- The state after `performUpkeep` succeeds from `s1c` at time 11. -/
def s2c : State :=
  { roundState := RoundState.DRAWING
    players := [2, 3, 4]
    pooledBalance := 17
    lastTimestamp := 0
    outstandingRequestId := some 1
    recentWinner := none
    nextRequestId := 2
    issuedIds := [1] }

/-- The state after request 1 is resolved from `s2c` with random value
8 at time 20: winner is player at index 8 mod 3 = 2, i.e. 4. -/
def s3c : State :=
  { roundState := RoundState.OPEN
    players := []
    pooledBalance := 0
    lastTimestamp := 20
    outstandingRequestId := none
    recentWinner := some 4
    nextRequestId := 2
    issuedIds := [1] }

/-- C8 witness: three entries paying 5, 5 and 7 from a fresh deployment,
then a draw and a resolution: the transferred amount is 17 = 5 + 5 + 7
and the pool returns to zero. -/
theorem round_trip_spec_witness :
    s3c.pooledBalance = 0 ∧
    17 = (([(2, 5), (3, 5), (4, 7)] : List (Nat × Nat)).map Prod.snd).sum :=
  round_trip_spec cfg0 (initialState 0) s1c s2c s3c
    [(2, 5), (3, 5), (4, 7)] 9 11 1 8 20
    (Event.RequestedRaffleWinner 1) (Event.WinnerPicked 4) 17
    rfl rfl rfl rfl

end Raffle
